import Mathlib

/-!
# Formike KWH070KQ40 MIPI-DSI panel drivers

A shallow embedding of the two panel drivers

* `drivers/gpu/drm/panel/panel-formike-kwh070kq40.c`    (4-lane variant)
* `drivers/gpu/drm/panel/panel-formike-kwh070kq40v2l.c` (2-lane variant)

Every driver callback is a function on an explicit `World`: the levels of
the four GPIO lines, the DSI mode flags, and the ordered trace of what the
callback did to the hardware (line writes, sleeps, DSI transactions).  The
DSI host is an oracle `bus : Nat → Int`: `bus n` is what the `n`-th
transaction of the run returns.  Since a run is sequential and
deterministic, every behaviour of a host that answers from the whole
history is the behaviour of such an oracle.

C integers are mathematical integers; the places where the source narrows
an `ssize_t` to an `int`, or a `u32` to a narrower field, apply the
narrowing explicitly.
-/

namespace Kwh070kq40

/-! ## C integer conversions -/

/-- Conversion to a 32-bit `int` (two's complement wrap-around). -/
def toInt32 (x : Int) : Int := (x + 2147483648) % 4294967296 - 2147483648

/-- Conversion to `u16`. -/
def toU16 (x : Nat) : Nat := x % 65536

/-- Conversion to `u32`. -/
def toU32 (x : Nat) : Nat := x % 4294967296

/-! ## Linux constants used by the drivers (kernel headers, outside this repository) -/

/-- Value of `EINVAL` in `include/uapi/asm-generic/errno-base.h`. -/
def EINVAL : Int := 22

/-- Value of `ENOENT` in `include/uapi/asm-generic/errno-base.h`. -/
def ENOENT : Int := 2

/-- Value of `MIPI_DSI_MODE_LPM`, which is `BIT(11)` in `include/drm/drm_mipi_dsi.h`. -/
def MIPI_DSI_MODE_LPM : Nat := 2048

/-- Value of `DRM_MODE_TYPE_PREFERRED`, which is `(1<<3)` in `include/uapi/drm/drm_mode.h`. -/
def DRM_MODE_TYPE_PREFERRED : Nat := 8

/-- Value of `DRM_MODE_TYPE_DRIVER`, which is `(1<<6)` in `include/uapi/drm/drm_mode.h`. -/
def DRM_MODE_TYPE_DRIVER : Nat := 64

/-- Value of `MEDIA_BUS_FMT_RGB888_1X24` in `include/uapi/linux/media-bus-format.h`. -/
def MEDIA_BUS_FMT_RGB888_1X24 : Nat := 0x100a

/-! ## Hardware model -/

/-- The four GPIO lines of `struct kwh070kq40_panel.gpios`. -/
inductive Gpio where
  | power
  | reset
  | updn
  | shlr
  deriving DecidableEq

/-- Members of `enum mipi_dsi_dcs_tear_mode`. -/
inductive TearMode where
  | MIPI_DSI_DCS_TEAR_MODE_VBLANK
  | MIPI_DSI_DCS_TEAR_MODE_VHBLANK
  deriving DecidableEq

/-- One DSI command transaction, named after the kernel call that issues it. -/
inductive Cmd where
  /-- Call `mipi_dsi_dcs_write(dsi, cmd, data, len)`: opcode and payload bytes. -/
  | dcs_write (cmd : Nat) (data : List Nat)
  /-- Call `mipi_dsi_dcs_set_tear_on(dsi, mode)`. -/
  | set_tear_on (mode : TearMode)
  /-- Call `mipi_dsi_dcs_exit_sleep_mode(dsi)`. -/
  | exit_sleep_mode
  /-- Call `mipi_dsi_dcs_set_display_on(dsi)`. -/
  | set_display_on
  /-- Call `mipi_dsi_dcs_enter_sleep_mode(dsi)`. -/
  | enter_sleep_mode
  deriving DecidableEq

/-- What a callback does to the hardware, one entry per call. -/
inductive Event where
  /-- Call `gpiod_set_value(line, value)`. -/
  | gpio (line : Gpio) (value : Nat)
  /-- Call `msleep(ms)`. -/
  | hold (ms : Nat)
  /-- A DSI command transaction. -/
  | dsi (c : Cmd)
  deriving DecidableEq

/-- Is the event a command transaction? -/
def Event.isCmd : Event → Bool
  | .dsi _ => true
  | _ => false

/-- Levels of the four signal lines. -/
structure Lines where
  power : Nat
  reset : Nat
  updn : Nat
  shlr : Nat
  deriving DecidableEq

/-- The hardware state a callback runs against, and the record of the run. -/
structure World where
  /-- Current level of each signal line. -/
  lines : Lines
  /-- Field `dsi->mode_flags`. -/
  mode_flags : Nat
  /-- Everything done so far, oldest first. -/
  trace : List Event
  /-- Return values of the transactions issued so far, oldest first. -/
  rets : List Int
  deriving DecidableEq

/-- The world at the start of a callback: given lines and mode flags, nothing done yet. -/
def World.start (l : Lines) (mode_flags : Nat) : World :=
  { lines := l, mode_flags := mode_flags, trace := [], rets := [] }

/-- Kernel `gpiod_set_value`: drive one line and record the write. -/
def gpiod_set_value (g : Gpio) (value : Nat) (w : World) : World :=
  let l := w.lines
  let l :=
    match g with
    | .power => { l with power := value }
    | .reset => { l with reset := value }
    | .updn => { l with updn := value }
    | .shlr => { l with shlr := value }
  { w with lines := l, trace := w.trace ++ [Event.gpio g value] }

/-- Kernel `msleep`: record a hold of `ms` milliseconds. -/
def msleep (ms : Nat) (w : World) : World :=
  { w with trace := w.trace ++ [Event.hold ms] }

/-- One transaction on the DSI host: it is recorded and the host's answer returned. -/
def dsi_transfer (bus : Nat → Int) (c : Cmd) (w : World) : Int × World :=
  let r := bus w.rets.length
  (r, { w with trace := w.trace ++ [Event.dsi c], rets := w.rets ++ [r] })

/-- Kernel `mipi_dsi_dcs_write`; the result is an `ssize_t`. -/
def mipi_dsi_dcs_write (bus : Nat → Int) (cmd : Nat) (data : List Nat) (w : World) :
    Int × World :=
  dsi_transfer bus (Cmd.dcs_write cmd data) w

/-- Kernel `mipi_dsi_dcs_set_tear_on`; the result is an `int`. -/
def mipi_dsi_dcs_set_tear_on (bus : Nat → Int) (mode : TearMode) (w : World) : Int × World :=
  dsi_transfer bus (Cmd.set_tear_on mode) w

/-- Kernel `mipi_dsi_dcs_exit_sleep_mode`; the result is an `int`. -/
def mipi_dsi_dcs_exit_sleep_mode (bus : Nat → Int) (w : World) : Int × World :=
  dsi_transfer bus Cmd.exit_sleep_mode w

/-- Kernel `mipi_dsi_dcs_set_display_on`; the result is an `int`. -/
def mipi_dsi_dcs_set_display_on (bus : Nat → Int) (w : World) : Int × World :=
  dsi_transfer bus Cmd.set_display_on w

/-- Kernel `mipi_dsi_dcs_enter_sleep_mode`; the result is an `int`. -/
def mipi_dsi_dcs_enter_sleep_mode (bus : Nat → Int) (w : World) : Int × World :=
  dsi_transfer bus Cmd.enter_sleep_mode w

/-! ## 4-lane variant: `panel-formike-kwh070kq40.c` -/

/-- The anonymous `config` member of `struct kwh070kq40_panel`. -/
structure kwh070kq40_config where
  test_pattern : Bool
  deriving DecidableEq

/-- The part of `struct kwh070kq40_panel` that the callbacks read. -/
structure kwh070kq40_panel where
  config : kwh070kq40_config
  deriving DecidableEq

/-- Source function `kwh070kq40_panel_prepare`.  The local `ret` is an
`ssize_t`; the function returns `int`, so `return ret` narrows. -/
def kwh070kq40_panel_prepare (bus : Nat → Int) (pnl : kwh070kq40_panel) (w : World) :
    Int × World :=
  let w := msleep 20 w
  let w := gpiod_set_value Gpio.power 1 w
  let w := msleep 20 w
  let w := gpiod_set_value Gpio.reset 1 w
  let w := msleep 10 w
  let w := gpiod_set_value Gpio.reset 0 w
  let w := msleep 10 w
  let w := gpiod_set_value Gpio.reset 1 w
  let w := msleep 120 w
  if pnl.config.test_pattern then
    let (ret, w) := mipi_dsi_dcs_write bus 0x87 [0x5A] w
    if ret < 0 then (toInt32 ret, w)
    else
      let (ret, w) := mipi_dsi_dcs_write bus 0xB1 [0x08] w
      if ret < 0 then (toInt32 ret, w)
      else (0, w)
  else (0, w)

/-- Source function `kwh070kq40_panel_enable`. -/
def kwh070kq40_panel_enable (bus : Nat → Int) (w : World) : Int × World :=
  let w := { w with mode_flags := w.mode_flags ||| MIPI_DSI_MODE_LPM }
  let (ret, w) := mipi_dsi_dcs_set_tear_on bus TearMode.MIPI_DSI_DCS_TEAR_MODE_VBLANK w
  if ret ≠ 0 then (ret, w)
  else
    let (ret, w) := mipi_dsi_dcs_exit_sleep_mode bus w
    if ret ≠ 0 then (ret, w)
    else
      let w := msleep 120 w
      let (_, w) := mipi_dsi_dcs_set_display_on bus w
      (0, w)

/-- Source function `kwh070kq40_panel_disable`. -/
def kwh070kq40_panel_disable (bus : Nat → Int) (w : World) : Int × World :=
  mipi_dsi_dcs_enter_sleep_mode bus w

/-- Source function `kwh070kq40_panel_unprepare`. -/
def kwh070kq40_panel_unprepare (w : World) : Int × World :=
  let w := gpiod_set_value Gpio.reset 0 w
  let w := gpiod_set_value Gpio.power 0 w
  (0, w)

/-! ## 2-lane variant: `panel-formike-kwh070kq40v2l.c` -/

/-- Source function `kwh070kq40v2l_panel_prepare`.  The local `ret` is an
`int`, so each `ssize_t` result is narrowed when it is stored. -/
def kwh070kq40v2l_panel_prepare (bus : Nat → Int) (w : World) : Int × World :=
  let w := gpiod_set_value Gpio.power 0 w
  let w := msleep 120 w
  let w := gpiod_set_value Gpio.reset 1 w
  let w := msleep 10 w
  let w := gpiod_set_value Gpio.reset 0 w
  let w := msleep 10 w
  let w := gpiod_set_value Gpio.reset 1 w
  let w := msleep 120 w
  let w := gpiod_set_value Gpio.power 1 w
  let (r, w) := mipi_dsi_dcs_write bus 0x87 [0x5A] w
  let ret := toInt32 r
  if ret < 0 then (ret, w)
  else
    let (r, w) := mipi_dsi_dcs_write bus 0xB2 [0x50] w
    let ret := toInt32 r
    if ret < 0 then (ret, w)
    else (0, w)

/-- Source function `kwh070kq40v2l_panel_enable`. -/
def kwh070kq40v2l_panel_enable (bus : Nat → Int) (w : World) : Int × World :=
  let w := { w with mode_flags := w.mode_flags ||| MIPI_DSI_MODE_LPM }
  let (ret, w) := mipi_dsi_dcs_set_tear_on bus TearMode.MIPI_DSI_DCS_TEAR_MODE_VBLANK w
  if ret ≠ 0 then (ret, w)
  else
    let (ret, w) := mipi_dsi_dcs_exit_sleep_mode bus w
    if ret ≠ 0 then (ret, w)
    else
      let w := msleep 120 w
      let (_, w) := mipi_dsi_dcs_set_display_on bus w
      mipi_dsi_dcs_exit_sleep_mode bus w

/-- Source function `kwh070kq40v2l_panel_disable`. -/
def kwh070kq40v2l_panel_disable (bus : Nat → Int) (w : World) : Int × World :=
  mipi_dsi_dcs_enter_sleep_mode bus w

/-- Source function `kwh070kq40v2l_panel_unprepare`. -/
def kwh070kq40v2l_panel_unprepare (w : World) : Int × World :=
  let w := gpiod_set_value Gpio.reset 0 w
  let w := gpiod_set_value Gpio.power 0 w
  (0, w)

/-! ## Display modes and the device tree -/

/-- The members of the kernel's `struct drm_display_mode` that the drivers
touch.  In the header `clock` is an `int`, the eight horizontal and vertical
timings and the two sizes are `u16`, `type` is a `u8`.  The `name` member is
the text that `drm_mode_set_name` prints as `"%dx%d"`; it is kept as the
pair of numbers printed, `none` standing for the empty name. -/
structure drm_display_mode where
  clock : Int
  hdisplay : Nat
  hsync_start : Nat
  hsync_end : Nat
  htotal : Nat
  vdisplay : Nat
  vsync_start : Nat
  vsync_end : Nat
  vtotal : Nat
  flags : Nat
  width_mm : Nat
  height_mm : Nat
  type : Nat
  name : Option (Nat × Nat)
  deriving DecidableEq

/-- The members of `struct drm_display_info` that `get_modes` writes. -/
structure drm_display_info where
  bpc : Nat
  width_mm : Nat
  height_mm : Nat
  bus_formats : List Nat
  deriving DecidableEq

/-- The members of `struct drm_connector` that `get_modes` writes. -/
structure drm_connector where
  /-- The list `probed_modes`, in list order. -/
  probed_modes : List drm_display_mode
  display_info : drm_display_info
  deriving DecidableEq

/-- Whether the two allocations made on behalf of `get_modes` succeed. -/
structure Alloc where
  /-- Does `drm_mode_duplicate` return a mode rather than `NULL`? -/
  mode_ok : Bool
  /-- Does the `kmemdup` inside `drm_display_info_set_bus_formats` succeed? -/
  formats_ok : Bool
  deriving DecidableEq

/-- What one `of_property_read_u32` on a property yields: the status it
returns and, when the status is 0, the value it stores. -/
structure of_read where
  status : Int
  value : Nat
  deriving DecidableEq

/-- A device-tree node (`struct device_node`): what reading each of its
properties yields, and its children by name. -/
inductive device_node where
  | mk (read_u32 : String → of_read) (child : String → Option device_node)

/-- Reading a property of a node. -/
def device_node.read_u32 : device_node → String → of_read
  | .mk r _ => r

/-- The child of a node with a given name, if any. -/
def device_node.child : device_node → String → Option device_node
  | .mk _ c => c

/-- Kernel `of_property_read_u32(np, propname, &val)`: returns the status
and the new content of `val`, which is written only on success. -/
def of_property_read_u32 (np : device_node) (propname : String) (val : Nat) : Int × Nat :=
  if (np.read_u32 propname).status = 0 then (0, toU32 (np.read_u32 propname).value)
  else ((np.read_u32 propname).status, val)

/-- Kernel `of_get_child_by_name`. -/
def of_get_child_by_name (np : device_node) (name : String) : Option device_node :=
  np.child name

/-- Kernel `drm_mode_duplicate`: a copy of the mode, or `NULL`. -/
def drm_mode_duplicate (env : Alloc) (mode : drm_display_mode) : Option drm_display_mode :=
  if env.mode_ok then some mode else none

/-- Kernel `drm_mode_set_name`: the name is `hdisplay` x `vdisplay`. -/
def drm_mode_set_name (mode : drm_display_mode) : drm_display_mode :=
  { mode with name := some (mode.hdisplay, mode.vdisplay) }

/-- Kernel `drm_mode_probed_add`: append to the connector's probed modes. -/
def drm_mode_probed_add (connector : drm_connector) (mode : drm_display_mode) :
    drm_connector :=
  { connector with probed_modes := connector.probed_modes ++ [mode] }

/-- Kernel `drm_display_info_set_bus_formats`: replaces the formats unless
the copy cannot be allocated. -/
def drm_display_info_set_bus_formats (env : Alloc) (info : drm_display_info)
    (formats : List Nat) : drm_display_info :=
  if env.formats_ok then { info with bus_formats := formats } else info

namespace FourLane

/-- Source function `of_parse_display_timing` of the 4-lane driver: nine
property reads whose statuses are or-ed into `ret`, each followed by a
store of `val` into a member of `dt`.  The value read for `"hdisplay"` is
stored into `hsync_start`. -/
def of_parse_display_timing (np : device_node) (dt : drm_display_mode) :
    Int × drm_display_mode :=
  let val : Nat := 0
  let ret : Int := 0
  let (r, val) := of_property_read_u32 np "clock-frequency" val
  let ret := Int.lor ret r
  let dt := { dt with clock := toInt32 val }
  let (r, val) := of_property_read_u32 np "hdisplay" val
  let ret := Int.lor ret r
  let dt := { dt with hsync_start := toU16 val }
  let (r, val) := of_property_read_u32 np "hsync_start" val
  let ret := Int.lor ret r
  let dt := { dt with hsync_start := toU16 val }
  let (r, val) := of_property_read_u32 np "hsync_end" val
  let ret := Int.lor ret r
  let dt := { dt with hsync_end := toU16 val }
  let (r, val) := of_property_read_u32 np "htotal" val
  let ret := Int.lor ret r
  let dt := { dt with htotal := toU16 val }
  let (r, val) := of_property_read_u32 np "vdisplay" val
  let ret := Int.lor ret r
  let dt := { dt with vdisplay := toU16 val }
  let (r, val) := of_property_read_u32 np "vsync_start" val
  let ret := Int.lor ret r
  let dt := { dt with vsync_start := toU16 val }
  let (r, val) := of_property_read_u32 np "vsync_end" val
  let ret := Int.lor ret r
  let dt := { dt with vsync_end := toU16 val }
  let (r, val) := of_property_read_u32 np "vtotal" val
  let ret := Int.lor ret r
  let dt := { dt with vtotal := toU16 val }
  if ret ≠ 0 then (-EINVAL, dt)
  else (0, dt)

/-- Source function `of_get_display_timing` of the 4-lane driver; `np` is
`none` for a `NULL` node. -/
def of_get_display_timing (np : Option device_node) (name : String) (dt : drm_display_mode) :
    Int × drm_display_mode :=
  match np with
  | none => (-EINVAL, dt)
  | some np =>
    match of_get_child_by_name np name with
    | none => (-ENOENT, dt)
    | some timing_np => of_parse_display_timing timing_np dt

/-- Source constant `default_mode` of the 4-lane driver. -/
def default_mode : drm_display_mode :=
  { clock := 55555
    hdisplay := 1024
    hsync_start := 1024 + 160
    hsync_end := 1024 + 160 + 80
    htotal := 1024 + 160 + 80 + 80
    vdisplay := 600
    vsync_start := 600 + 12
    vsync_end := 600 + 12 + 10
    vtotal := 600 + 12 + 10 + 13
    flags := 0
    width_mm := 154
    height_mm := 86
    type := 0
    name := none }

/-- Source function `kwh070kq40_panel_get_modes`; `of_node` is
`panel->dev->of_node`. -/
def kwh070kq40_panel_get_modes (env : Alloc) (of_node : Option device_node)
    (connector : drm_connector) : Int × drm_connector :=
  match drm_mode_duplicate env default_mode with
  | none => (-EINVAL, connector)
  | some mode =>
    let (ret, mode) := of_get_display_timing of_node "panel-timing" mode
    if ret < 0 then (ret, connector)
    else
      let mode := drm_mode_set_name mode
      let mode := { mode with type := DRM_MODE_TYPE_DRIVER ||| DRM_MODE_TYPE_PREFERRED }
      let connector := drm_mode_probed_add connector mode
      let info := connector.display_info
      let info := { info with bpc := 8 }
      let info := { info with width_mm := mode.width_mm }
      let info := { info with height_mm := mode.height_mm }
      let info := drm_display_info_set_bus_formats env info [MEDIA_BUS_FMT_RGB888_1X24]
      (1, { connector with display_info := info })

end FourLane

namespace TwoLane

/-- Source constant `default_mode` of the 2-lane driver. -/
def default_mode : drm_display_mode :=
  { clock := 20833
    hdisplay := 1024
    hsync_start := 1024 + 160
    hsync_end := 1024 + 160 + 80
    htotal := 1024 + 160 + 80 + 80
    vdisplay := 600
    vsync_start := 600 + 12
    vsync_end := 600 + 12 + 10
    vtotal := 600 + 12 + 10 + 13
    flags := 0
    width_mm := 154
    height_mm := 86
    type := 0
    name := none }

/-- Source function `kwh070kq40v2l_panel_get_modes`. -/
def kwh070kq40v2l_panel_get_modes (env : Alloc) (connector : drm_connector) :
    Int × drm_connector :=
  match drm_mode_duplicate env default_mode with
  | none => (-EINVAL, connector)
  | some mode =>
    let mode := drm_mode_set_name mode
    let mode := { mode with type := DRM_MODE_TYPE_DRIVER ||| DRM_MODE_TYPE_PREFERRED }
    let connector := drm_mode_probed_add connector mode
    let info := connector.display_info
    let info := { info with bpc := 8 }
    let info := { info with width_mm := mode.width_mm }
    let info := { info with height_mm := mode.height_mm }
    let info := drm_display_info_set_bus_formats env info [MEDIA_BUS_FMT_RGB888_1X24]
    (1, { connector with display_info := info })

end TwoLane

/-- A device node with the given properties and no children. -/
def leafNode (read_u32 : String → of_read) : device_node :=
  device_node.mk read_u32 (fun _ => none)

/-- A panel node whose only child is a `panel-timing` node. -/
def panelNode (timing : device_node) : device_node :=
  device_node.mk (fun _ => ⟨-EINVAL, 0⟩)
    (fun name => if name = "panel-timing" then some timing else none)

/-- A panel node without children. -/
def bareNode : device_node :=
  device_node.mk (fun _ => ⟨-EINVAL, 0⟩) (fun _ => none)

/-- A timing node in which all nine properties are present, with 800x480
timings: every read succeeds. -/
def timing800x480 : device_node :=
  leafNode (fun name =>
    if name = "clock-frequency" then ⟨0, 33000⟩
    else if name = "hdisplay" then ⟨0, 800⟩
    else if name = "hsync_start" then ⟨0, 840⟩
    else if name = "hsync_end" then ⟨0, 968⟩
    else if name = "htotal" then ⟨0, 1056⟩
    else if name = "vdisplay" then ⟨0, 480⟩
    else if name = "vsync_start" then ⟨0, 490⟩
    else if name = "vsync_end" then ⟨0, 492⟩
    else if name = "vtotal" then ⟨0, 525⟩
    else ⟨-EINVAL, 0⟩)

/-- A timing node in which `hsync_end` is absent and the other eight
properties are present. -/
def timingWithoutHsyncEnd : device_node :=
  leafNode (fun name => if name = "hsync_end" then ⟨-EINVAL, 0⟩ else ⟨0, 100⟩)

/-- A connector on which nothing has been probed yet. -/
def emptyConnector : drm_connector :=
  { probed_modes := []
    display_info := { bpc := 0, width_mm := 0, height_mm := 0, bus_formats := [] } }

/-! ## Dispatch through the `drm_panel_funcs` tables -/

/-- A `struct drm_panel` as the DRM core holds it: which driver registered it
(`kwh070kq40_panel_funcs` or `kwh070kq40v2l_panel_funcs`), with the private
data that `container_of` recovers. -/
inductive drm_panel where
  | kwh070kq40 (pnl : kwh070kq40_panel)
  | kwh070kq40v2l
  deriving DecidableEq

/-- Call `panel->funcs->prepare(panel)`. -/
def drm_panel.prepare (bus : Nat → Int) (w : World) : drm_panel → Int × World
  | .kwh070kq40 pnl => kwh070kq40_panel_prepare bus pnl w
  | .kwh070kq40v2l => kwh070kq40v2l_panel_prepare bus w

/-- Call `panel->funcs->enable(panel)`. -/
def drm_panel.enable (bus : Nat → Int) (w : World) : drm_panel → Int × World
  | .kwh070kq40 _ => kwh070kq40_panel_enable bus w
  | .kwh070kq40v2l => kwh070kq40v2l_panel_enable bus w

/-- Call `panel->funcs->disable(panel)`. -/
def drm_panel.disable (bus : Nat → Int) (w : World) : drm_panel → Int × World
  | .kwh070kq40 _ => kwh070kq40_panel_disable bus w
  | .kwh070kq40v2l => kwh070kq40v2l_panel_disable bus w

/-- Call `panel->funcs->unprepare(panel)`. -/
def drm_panel.unprepare (w : World) : drm_panel → Int × World
  | .kwh070kq40 _ => kwh070kq40_panel_unprepare w
  | .kwh070kq40v2l => kwh070kq40v2l_panel_unprepare w

/-- In a trace, does every line write and hold come before every command transaction? -/
def signalsBeforeCmds (t : List Event) : Bool :=
  (t.dropWhile (fun e => !e.isCmd)).all Event.isCmd

/-! ## Helper lemmas -/

/-- Narrowing to `int` leaves a value of the `int` range unchanged. -/
theorem toInt32_of_range (x : Int) (hlo : -2147483648 ≤ x) (hhi : x < 2147483648) :
    toInt32 x = x := by
  unfold toInt32
  omega

/-- A bitwise or of two naturals is zero only when both are. -/
theorem nat_lor_eq_zero (a b : Nat) (h : a ||| b = 0) : a = 0 ∧ b = 0 := by
  have key : ∀ i, (a.testBit i || b.testBit i) = false := by
    intro i
    rw [← Nat.testBit_or, h]
    simp
  constructor
  · apply Nat.eq_of_testBit_eq
    intro i
    have := key i
    simp at this ⊢
    exact this.1
  · apply Nat.eq_of_testBit_eq
    intro i
    have := key i
    simp at this ⊢
    exact this.2

/-- A bitwise or of two integers is zero exactly when both are. -/
theorem int_lor_eq_zero (a b : Int) : Int.lor a b = 0 ↔ a = 0 ∧ b = 0 := by
  constructor
  · intro h
    cases a <;> cases b <;> simp [Int.lor] at h
    · rename_i m n
      have := nat_lor_eq_zero m n (by exact_mod_cast h)
      simp [this.1, this.2]
  · rintro ⟨rfl, rfl⟩
    decide

/-- The status that `of_property_read_u32` returns is the status of the read. -/
theorem of_property_read_u32_status (np : device_node) (n : String) (v : Nat) :
    (of_property_read_u32 np n v).1 = (np.read_u32 n).status := by
  unfold of_property_read_u32
  split <;> simp_all

/-- The parse returns 0 when all nine reads return 0, and `-EINVAL` otherwise. -/
theorem of_parse_display_timing_status (np : device_node) (dt : drm_display_mode) :
    (FourLane.of_parse_display_timing np dt).1 =
      if (np.read_u32 "clock-frequency").status = 0 ∧ (np.read_u32 "hdisplay").status = 0 ∧
         (np.read_u32 "hsync_start").status = 0 ∧ (np.read_u32 "hsync_end").status = 0 ∧
         (np.read_u32 "htotal").status = 0 ∧ (np.read_u32 "vdisplay").status = 0 ∧
         (np.read_u32 "vsync_start").status = 0 ∧ (np.read_u32 "vsync_end").status = 0 ∧
         (np.read_u32 "vtotal").status = 0 then 0 else -EINVAL := by
  simp only [FourLane.of_parse_display_timing]
  simp only [ne_eq, int_lor_eq_zero, of_property_read_u32_status, true_and, and_assoc]
  split_ifs <;> rfl

/-! ## Power-up and teardown (claims C1, C2, C10) -/

/-- Claim C1: in the 4-lane variant, when every transaction that prepare
issues succeeds (returns a non-negative count), prepare returns 0 and its
trace is hold 20, power=1, hold 20, reset=1, hold 10, reset=0, hold 10,
reset=1, hold 120, followed by nothing when `test_pattern` is clear and by
the writes (0x87,[0x5A]) then (0xB1,[0x08]) when it is set; all line writes
and holds come before all command transactions. -/
theorem C1_prepare_4lane (bus : Nat → Int) (pnl : kwh070kq40_panel) (l : Lines) (mf : Nat)
    (hok : ∀ r ∈ (kwh070kq40_panel_prepare bus pnl (World.start l mf)).2.rets, 0 ≤ r) :
    (kwh070kq40_panel_prepare bus pnl (World.start l mf)).1 = 0 ∧
    (kwh070kq40_panel_prepare bus pnl (World.start l mf)).2.trace =
      [Event.hold 20, Event.gpio Gpio.power 1, Event.hold 20, Event.gpio Gpio.reset 1,
       Event.hold 10, Event.gpio Gpio.reset 0, Event.hold 10, Event.gpio Gpio.reset 1,
       Event.hold 120] ++
      (if pnl.config.test_pattern = true then
        [Event.dsi (Cmd.dcs_write 0x87 [0x5A]), Event.dsi (Cmd.dcs_write 0xB1 [0x08])]
       else []) ∧
    signalsBeforeCmds (kwh070kq40_panel_prepare bus pnl (World.start l mf)).2.trace = true := by
  obtain ⟨⟨tp⟩⟩ := pnl
  cases tp
  · simp [kwh070kq40_panel_prepare, msleep, gpiod_set_value, World.start, signalsBeforeCmds,
      Event.isCmd]
  · by_cases h0 : bus 0 < 0
    · exfalso
      have := hok (bus 0) (by
        simp [kwh070kq40_panel_prepare, msleep, gpiod_set_value, World.start,
          mipi_dsi_dcs_write, dsi_transfer, h0])
      omega
    · by_cases h1 : bus 1 < 0
      · exfalso
        have := hok (bus 1) (by
          simp [kwh070kq40_panel_prepare, msleep, gpiod_set_value, World.start,
            mipi_dsi_dcs_write, dsi_transfer, h0, h1])
        omega
      · simp [kwh070kq40_panel_prepare, msleep, gpiod_set_value, World.start,
          mipi_dsi_dcs_write, dsi_transfer, h0, h1, signalsBeforeCmds, Event.isCmd]

/-- Witness for C1: the test pattern is requested and the host accepts every write. -/
theorem C1_prepare_4lane_witness :
    (kwh070kq40_panel_prepare (fun _ => 2) ⟨⟨true⟩⟩ (World.start ⟨0, 0, 0, 0⟩ 0)).1 = 0 ∧
    (kwh070kq40_panel_prepare (fun _ => 2) ⟨⟨true⟩⟩ (World.start ⟨0, 0, 0, 0⟩ 0)).2.trace =
      [Event.hold 20, Event.gpio Gpio.power 1, Event.hold 20, Event.gpio Gpio.reset 1,
       Event.hold 10, Event.gpio Gpio.reset 0, Event.hold 10, Event.gpio Gpio.reset 1,
       Event.hold 120] ++
      (if (⟨⟨true⟩⟩ : kwh070kq40_panel).config.test_pattern = true then
        [Event.dsi (Cmd.dcs_write 0x87 [0x5A]), Event.dsi (Cmd.dcs_write 0xB1 [0x08])]
       else []) ∧
    signalsBeforeCmds
      (kwh070kq40_panel_prepare (fun _ => 2) ⟨⟨true⟩⟩ (World.start ⟨0, 0, 0, 0⟩ 0)).2.trace =
        true :=
  C1_prepare_4lane (fun _ => 2) ⟨⟨true⟩⟩ ⟨0, 0, 0, 0⟩ 0 (by decide)

/-- Claim C2: in the 2-lane variant, when every transaction that prepare
issues succeeds (returns a non-negative count, one that an `int` holds),
prepare returns 0 and its trace is power=0, hold 120, reset=1, hold 10,
reset=0, hold 10, reset=1, hold 120, power=1, then the writes (0x87,[0x5A])
and (0xB2,[0x50]); the callback reads no configuration flag, and all line
writes and holds come before all command transactions. -/
theorem C2_prepare_2lane (bus : Nat → Int) (l : Lines) (mf : Nat)
    (hok : ∀ r ∈ (kwh070kq40v2l_panel_prepare bus (World.start l mf)).2.rets,
      0 ≤ r ∧ r < 2147483648) :
    (kwh070kq40v2l_panel_prepare bus (World.start l mf)).1 = 0 ∧
    (kwh070kq40v2l_panel_prepare bus (World.start l mf)).2.trace =
      [Event.gpio Gpio.power 0, Event.hold 120, Event.gpio Gpio.reset 1, Event.hold 10,
       Event.gpio Gpio.reset 0, Event.hold 10, Event.gpio Gpio.reset 1, Event.hold 120,
       Event.gpio Gpio.power 1,
       Event.dsi (Cmd.dcs_write 0x87 [0x5A]), Event.dsi (Cmd.dcs_write 0xB2 [0x50])] ∧
    signalsBeforeCmds (kwh070kq40v2l_panel_prepare bus (World.start l mf)).2.trace = true := by
  by_cases h0 : toInt32 (bus 0) < 0
  · exfalso
    have := hok (bus 0) (by
      simp [kwh070kq40v2l_panel_prepare, msleep, gpiod_set_value, World.start,
        mipi_dsi_dcs_write, dsi_transfer, h0])
    rw [toInt32_of_range _ (by omega) this.2] at h0
    omega
  · by_cases h1 : toInt32 (bus 1) < 0
    · exfalso
      have := hok (bus 1) (by
        simp [kwh070kq40v2l_panel_prepare, msleep, gpiod_set_value, World.start,
          mipi_dsi_dcs_write, dsi_transfer, h0, h1])
      rw [toInt32_of_range _ (by omega) this.2] at h1
      omega
    · simp [kwh070kq40v2l_panel_prepare, msleep, gpiod_set_value, World.start,
        mipi_dsi_dcs_write, dsi_transfer, h0, h1, signalsBeforeCmds, Event.isCmd]

/-- Witness for C2: the host accepts every write. -/
theorem C2_prepare_2lane_witness :
    (kwh070kq40v2l_panel_prepare (fun _ => 2) (World.start ⟨1, 1, 0, 0⟩ 0)).1 = 0 ∧
    (kwh070kq40v2l_panel_prepare (fun _ => 2) (World.start ⟨1, 1, 0, 0⟩ 0)).2.trace =
      [Event.gpio Gpio.power 0, Event.hold 120, Event.gpio Gpio.reset 1, Event.hold 10,
       Event.gpio Gpio.reset 0, Event.hold 10, Event.gpio Gpio.reset 1, Event.hold 120,
       Event.gpio Gpio.power 1,
       Event.dsi (Cmd.dcs_write 0x87 [0x5A]), Event.dsi (Cmd.dcs_write 0xB2 [0x50])] ∧
    signalsBeforeCmds
      (kwh070kq40v2l_panel_prepare (fun _ => 2) (World.start ⟨1, 1, 0, 0⟩ 0)).2.trace = true :=
  C2_prepare_2lane (fun _ => 2) ⟨1, 1, 0, 0⟩ 0 (by decide)

/-- Claim C10: in both variants and from every level of the signal lines,
unprepare returns 0 and its trace is exactly reset=0 then power=0: no hold,
no command transaction.  It leaves reset and power low and the other two
lines as they were. -/
theorem C10_unprepare (p : drm_panel) (l : Lines) (mf : Nat) :
    (p.unprepare (World.start l mf)).1 = 0 ∧
    (p.unprepare (World.start l mf)).2.trace =
      [Event.gpio Gpio.reset 0, Event.gpio Gpio.power 0] ∧
    (p.unprepare (World.start l mf)).2.rets = [] ∧
    (p.unprepare (World.start l mf)).2.lines =
      { power := 0, reset := 0, updn := l.updn, shlr := l.shlr } := by
  cases p <;>
    simp [drm_panel.unprepare, kwh070kq40_panel_unprepare, kwh070kq40v2l_panel_unprepare,
      gpiod_set_value, World.start]

/-! ## Enable (claims C3, C4, C5) -/

/-- The 4-lane enable, when its first two transactions return 0, emits
exactly tear-on(vblank), exit-sleep, hold 120, display-on and returns 0,
whatever the display-on transaction returns. -/
theorem enable_4lane_trace (bus : Nat → Int) (l : Lines) (mf : Nat)
    (h0 : bus 0 = 0) (h1 : bus 1 = 0) :
    (kwh070kq40_panel_enable bus (World.start l mf)).1 = 0 ∧
    (kwh070kq40_panel_enable bus (World.start l mf)).2.trace =
      [Event.dsi (Cmd.set_tear_on TearMode.MIPI_DSI_DCS_TEAR_MODE_VBLANK),
       Event.dsi Cmd.exit_sleep_mode, Event.hold 120, Event.dsi Cmd.set_display_on] ∧
    (kwh070kq40_panel_enable bus (World.start l mf)).2.lines = l := by
  simp [kwh070kq40_panel_enable, mipi_dsi_dcs_set_tear_on, mipi_dsi_dcs_exit_sleep_mode,
    mipi_dsi_dcs_set_display_on, dsi_transfer, msleep, World.start, h0, h1]

/-- The 2-lane enable, when its first two transactions return 0, emits
tear-on(vblank), exit-sleep, hold 120, display-on and then a second
exit-sleep, whose result it returns. -/
theorem enable_2lane_trace (bus : Nat → Int) (l : Lines) (mf : Nat)
    (h0 : bus 0 = 0) (h1 : bus 1 = 0) :
    (kwh070kq40v2l_panel_enable bus (World.start l mf)).1 = bus 3 ∧
    (kwh070kq40v2l_panel_enable bus (World.start l mf)).2.trace =
      [Event.dsi (Cmd.set_tear_on TearMode.MIPI_DSI_DCS_TEAR_MODE_VBLANK),
       Event.dsi Cmd.exit_sleep_mode, Event.hold 120, Event.dsi Cmd.set_display_on,
       Event.dsi Cmd.exit_sleep_mode] ∧
    (kwh070kq40v2l_panel_enable bus (World.start l mf)).2.lines = l := by
  simp [kwh070kq40v2l_panel_enable, mipi_dsi_dcs_set_tear_on, mipi_dsi_dcs_exit_sleep_mode,
    mipi_dsi_dcs_set_display_on, dsi_transfer, msleep, World.start, h0, h1]

/-- Claim C3, at the input where the code departs from it: with a host that
accepts every transaction, the 2-lane enable emits five events, the four of
the claim and then a second exit-sleep transaction, so its trace is not the
claimed one; the 4-lane enable on the same host emits exactly the four. -/
theorem C3_enable_2lane_second_exit_sleep :
    (kwh070kq40v2l_panel_enable (fun _ => 0) (World.start ⟨1, 1, 0, 0⟩ 0)).2.trace =
      [Event.dsi (Cmd.set_tear_on TearMode.MIPI_DSI_DCS_TEAR_MODE_VBLANK),
       Event.dsi Cmd.exit_sleep_mode, Event.hold 120, Event.dsi Cmd.set_display_on,
       Event.dsi Cmd.exit_sleep_mode] ∧
    (kwh070kq40v2l_panel_enable (fun _ => 0) (World.start ⟨1, 1, 0, 0⟩ 0)).2.trace ≠
      [Event.dsi (Cmd.set_tear_on TearMode.MIPI_DSI_DCS_TEAR_MODE_VBLANK),
       Event.dsi Cmd.exit_sleep_mode, Event.hold 120, Event.dsi Cmd.set_display_on] ∧
    (kwh070kq40_panel_enable (fun _ => 0) (World.start ⟨1, 1, 0, 0⟩ 0)).2.trace =
      [Event.dsi (Cmd.set_tear_on TearMode.MIPI_DSI_DCS_TEAR_MODE_VBLANK),
       Event.dsi Cmd.exit_sleep_mode, Event.hold 120, Event.dsi Cmd.set_display_on] := by
  decide

/-- Claim C4, at the input where the code departs from it: the host accepts
tear-on and exit-sleep and fails display-on with -5.  The 4-lane enable
returns 0 although the transaction it issued returned -5.  The 2-lane enable
issues a further exit-sleep transaction after the failed one and returns
that transaction's 0. -/
theorem C4_enable_display_on_failure_dropped :
    ((kwh070kq40_panel_enable (fun n => if n = 2 then -5 else 0)
        (World.start ⟨1, 1, 0, 0⟩ 0)).1 = 0 ∧
     (kwh070kq40_panel_enable (fun n => if n = 2 then -5 else 0)
        (World.start ⟨1, 1, 0, 0⟩ 0)).2.rets = [0, 0, -5]) ∧
    ((kwh070kq40v2l_panel_enable (fun n => if n = 2 then -5 else 0)
        (World.start ⟨1, 1, 0, 0⟩ 0)).1 = 0 ∧
     (kwh070kq40v2l_panel_enable (fun n => if n = 2 then -5 else 0)
        (World.start ⟨1, 1, 0, 0⟩ 0)).2.rets = [0, 0, -5, 0] ∧
     (kwh070kq40v2l_panel_enable (fun n => if n = 2 then -5 else 0)
        (World.start ⟨1, 1, 0, 0⟩ 0)).2.trace =
      [Event.dsi (Cmd.set_tear_on TearMode.MIPI_DSI_DCS_TEAR_MODE_VBLANK),
       Event.dsi Cmd.exit_sleep_mode, Event.hold 120, Event.dsi Cmd.set_display_on,
       Event.dsi Cmd.exit_sleep_mode]) := by
  decide

/-- Claim C5: in both variants, (1) if the tear-on transaction fails, enable
returns its status and the trace is that single transaction: no exit-sleep,
no display-on, no 120 ms hold; (2) if tear-on succeeds and the exit-sleep
transaction fails, enable returns that status and the trace is the two
transactions, with no display-on.  A transaction fails when it returns a
non-zero status (`if (ret) return ret;`). -/
theorem C5_enable_early_failure (p : drm_panel) (bus : Nat → Int) (l : Lines) (mf : Nat) :
    (bus 0 ≠ 0 →
      (p.enable bus (World.start l mf)).1 = bus 0 ∧
      (p.enable bus (World.start l mf)).2.rets = [bus 0] ∧
      (p.enable bus (World.start l mf)).2.trace =
        [Event.dsi (Cmd.set_tear_on TearMode.MIPI_DSI_DCS_TEAR_MODE_VBLANK)] ∧
      Event.dsi Cmd.exit_sleep_mode ∉ (p.enable bus (World.start l mf)).2.trace ∧
      Event.dsi Cmd.set_display_on ∉ (p.enable bus (World.start l mf)).2.trace ∧
      Event.hold 120 ∉ (p.enable bus (World.start l mf)).2.trace) ∧
    (bus 0 = 0 → bus 1 ≠ 0 →
      (p.enable bus (World.start l mf)).1 = bus 1 ∧
      (p.enable bus (World.start l mf)).2.rets = [bus 0, bus 1] ∧
      (p.enable bus (World.start l mf)).2.trace =
        [Event.dsi (Cmd.set_tear_on TearMode.MIPI_DSI_DCS_TEAR_MODE_VBLANK),
         Event.dsi Cmd.exit_sleep_mode] ∧
      Event.dsi Cmd.set_display_on ∉ (p.enable bus (World.start l mf)).2.trace) := by
  constructor
  · intro h0
    cases p <;>
      simp [drm_panel.enable, kwh070kq40_panel_enable, kwh070kq40v2l_panel_enable,
        mipi_dsi_dcs_set_tear_on, dsi_transfer, World.start, h0]
  · intro h0 h1
    cases p <;>
      simp [drm_panel.enable, kwh070kq40_panel_enable, kwh070kq40v2l_panel_enable,
        mipi_dsi_dcs_set_tear_on, mipi_dsi_dcs_exit_sleep_mode, dsi_transfer, World.start,
        h0, h1]

/-- Witness for C5: a host that fails tear-on with -5 (2-lane panel), and a
host that accepts tear-on and fails exit-sleep with -5 (4-lane panel). -/
theorem C5_enable_early_failure_witness :
    ((drm_panel.kwh070kq40v2l.enable (fun _ => -5) (World.start ⟨1, 1, 0, 0⟩ 0)).1 = -5 ∧
     (drm_panel.kwh070kq40v2l.enable (fun _ => -5) (World.start ⟨1, 1, 0, 0⟩ 0)).2.trace =
        [Event.dsi (Cmd.set_tear_on TearMode.MIPI_DSI_DCS_TEAR_MODE_VBLANK)]) ∧
    (((drm_panel.kwh070kq40 ⟨⟨false⟩⟩).enable (fun n => if n = 1 then -5 else 0)
        (World.start ⟨1, 1, 0, 0⟩ 0)).1 = -5 ∧
     ((drm_panel.kwh070kq40 ⟨⟨false⟩⟩).enable (fun n => if n = 1 then -5 else 0)
        (World.start ⟨1, 1, 0, 0⟩ 0)).2.trace =
        [Event.dsi (Cmd.set_tear_on TearMode.MIPI_DSI_DCS_TEAR_MODE_VBLANK),
         Event.dsi Cmd.exit_sleep_mode]) :=
  ⟨have h := (C5_enable_early_failure drm_panel.kwh070kq40v2l (fun _ => -5)
      ⟨1, 1, 0, 0⟩ 0).1 (by decide)
   ⟨h.1, h.2.2.1⟩,
   have h := (C5_enable_early_failure (drm_panel.kwh070kq40 ⟨⟨false⟩⟩)
      (fun n => if n = 1 then -5 else 0) ⟨1, 1, 0, 0⟩ 0).2 (by decide) (by decide)
   ⟨h.1, h.2.2.1⟩⟩

/-! ## Command failure during prepare (claim C9) -/

/-- Claim C9: in both variants, if the transaction number `k` of prepare
returns a failure status `s` (negative, and within the range of the `int`
that carries it), then that transaction is the last one issued, prepare
returns `s`, and the trace is the variant's power-up sequence followed by
the transactions up to the failed one: no line is written after the
failure, and power and reset are left at 1. -/
theorem C9_prepare_command_failure (p : drm_panel) (bus : Nat → Int) (l : Lines) (mf : Nat)
    (k : Nat) (s : Int)
    (hk : (p.prepare bus (World.start l mf)).2.rets[k]? = some s)
    (hs : s < 0) (hr : -2147483648 ≤ s) :
    (p.prepare bus (World.start l mf)).1 = s ∧
    (p.prepare bus (World.start l mf)).2.rets.length = k + 1 ∧
    (p.prepare bus (World.start l mf)).2.trace =
      (match p with
       | drm_panel.kwh070kq40 _ =>
          [Event.hold 20, Event.gpio Gpio.power 1, Event.hold 20, Event.gpio Gpio.reset 1,
           Event.hold 10, Event.gpio Gpio.reset 0, Event.hold 10, Event.gpio Gpio.reset 1,
           Event.hold 120] ++
          List.take (k + 1)
            [Event.dsi (Cmd.dcs_write 0x87 [0x5A]), Event.dsi (Cmd.dcs_write 0xB1 [0x08])]
       | drm_panel.kwh070kq40v2l =>
          [Event.gpio Gpio.power 0, Event.hold 120, Event.gpio Gpio.reset 1, Event.hold 10,
           Event.gpio Gpio.reset 0, Event.hold 10, Event.gpio Gpio.reset 1, Event.hold 120,
           Event.gpio Gpio.power 1] ++
          List.take (k + 1)
            [Event.dsi (Cmd.dcs_write 0x87 [0x5A]), Event.dsi (Cmd.dcs_write 0xB2 [0x50])]) ∧
    (p.prepare bus (World.start l mf)).2.lines =
      { power := 1, reset := 1, updn := l.updn, shlr := l.shlr } := by
  have hwrap : toInt32 s = s := toInt32_of_range s hr (by omega)
  cases p with
  | kwh070kq40 pnl =>
    obtain ⟨⟨tp⟩⟩ := pnl
    cases tp
    · simp [drm_panel.prepare, kwh070kq40_panel_prepare, msleep, gpiod_set_value,
        World.start] at hk
    · by_cases h0 : bus 0 < 0
      · simp [drm_panel.prepare, kwh070kq40_panel_prepare, msleep, gpiod_set_value,
          World.start, mipi_dsi_dcs_write, dsi_transfer, h0] at hk ⊢
        rcases k with _ | k
        · simp at hk
          subst hk
          simp [hwrap]
        · simp at hk
      · by_cases h1 : bus 1 < 0
        · simp [drm_panel.prepare, kwh070kq40_panel_prepare, msleep, gpiod_set_value,
            World.start, mipi_dsi_dcs_write, dsi_transfer, h0, h1] at hk ⊢
          rcases k with _ | _ | k
          · simp at hk
            omega
          · simp at hk
            subst hk
            simp [hwrap]
          · simp at hk
        · simp [drm_panel.prepare, kwh070kq40_panel_prepare, msleep, gpiod_set_value,
            World.start, mipi_dsi_dcs_write, dsi_transfer, h0, h1] at hk
          rcases k with _ | _ | k
          · simp at hk
            omega
          · simp at hk
            omega
          · simp at hk
  | kwh070kq40v2l =>
    by_cases h0 : toInt32 (bus 0) < 0
    · simp [drm_panel.prepare, kwh070kq40v2l_panel_prepare, msleep, gpiod_set_value,
        World.start, mipi_dsi_dcs_write, dsi_transfer, h0] at hk ⊢
      rcases k with _ | k
      · simp at hk
        subst hk
        simp [hwrap]
      · simp at hk
    · by_cases h1 : toInt32 (bus 1) < 0
      · simp [drm_panel.prepare, kwh070kq40v2l_panel_prepare, msleep, gpiod_set_value,
          World.start, mipi_dsi_dcs_write, dsi_transfer, h0, h1] at hk ⊢
        rcases k with _ | _ | k
        · simp at hk
          rw [hk, hwrap] at h0
          omega
        · simp at hk
          subst hk
          simp [hwrap]
        · simp at hk
      · simp [drm_panel.prepare, kwh070kq40v2l_panel_prepare, msleep, gpiod_set_value,
          World.start, mipi_dsi_dcs_write, dsi_transfer, h0, h1] at hk
        rcases k with _ | _ | k
        · simp at hk
          rw [hk, hwrap] at h0
          omega
        · simp at hk
          rw [hk, hwrap] at h1
          omega
        · simp at hk

/-- Witness for C9: the second write fails with -5 on a 4-lane panel with
the test pattern requested, and the first write fails with -110 on a 2-lane
panel. -/
theorem C9_prepare_command_failure_witness :
    (((drm_panel.kwh070kq40 ⟨⟨true⟩⟩).prepare (fun n => if n = 1 then -5 else 1)
        (World.start ⟨0, 0, 0, 0⟩ 0)).1 = -5 ∧
     ((drm_panel.kwh070kq40 ⟨⟨true⟩⟩).prepare (fun n => if n = 1 then -5 else 1)
        (World.start ⟨0, 0, 0, 0⟩ 0)).2.rets.length = 1 + 1) ∧
    ((drm_panel.kwh070kq40v2l.prepare (fun _ => -110) (World.start ⟨0, 0, 0, 0⟩ 0)).1 = -110 ∧
     (drm_panel.kwh070kq40v2l.prepare (fun _ => -110)
        (World.start ⟨0, 0, 0, 0⟩ 0)).2.rets.length = 0 + 1) :=
  ⟨have h := C9_prepare_command_failure (drm_panel.kwh070kq40 ⟨⟨true⟩⟩)
      (fun n => if n = 1 then -5 else 1) ⟨0, 0, 0, 0⟩ 0 1 (-5) (by decide) (by decide)
      (by decide)
   ⟨h.1, h.2.1⟩,
   have h := C9_prepare_command_failure drm_panel.kwh070kq40v2l (fun _ => -110)
      ⟨0, 0, 0, 0⟩ 0 0 (-110) (by decide) (by decide) (by decide)
   ⟨h.1, h.2.1⟩⟩

/-! ## Mode selection (claims C6, C7, C8) -/

/-- When all nine reads succeed, the parse returns 0 and stores the clock
and seven of the eight timings from the node; the value read for
`"hdisplay"` is overwritten by the next read, and the `hdisplay` member
keeps what it held before the parse. -/
theorem of_parse_display_timing_all_present (np : device_node) (dt : drm_display_mode)
    (h1 : (np.read_u32 "clock-frequency").status = 0)
    (h2 : (np.read_u32 "hdisplay").status = 0)
    (h3 : (np.read_u32 "hsync_start").status = 0)
    (h4 : (np.read_u32 "hsync_end").status = 0)
    (h5 : (np.read_u32 "htotal").status = 0)
    (h6 : (np.read_u32 "vdisplay").status = 0)
    (h7 : (np.read_u32 "vsync_start").status = 0)
    (h8 : (np.read_u32 "vsync_end").status = 0)
    (h9 : (np.read_u32 "vtotal").status = 0) :
    FourLane.of_parse_display_timing np dt =
      (0, { dt with
            clock := toInt32 (toU32 (np.read_u32 "clock-frequency").value)
            hsync_start := toU16 (toU32 (np.read_u32 "hsync_start").value)
            hsync_end := toU16 (toU32 (np.read_u32 "hsync_end").value)
            htotal := toU16 (toU32 (np.read_u32 "htotal").value)
            vdisplay := toU16 (toU32 (np.read_u32 "vdisplay").value)
            vsync_start := toU16 (toU32 (np.read_u32 "vsync_start").value)
            vsync_end := toU16 (toU32 (np.read_u32 "vsync_end").value)
            vtotal := toU16 (toU32 (np.read_u32 "vtotal").value) }) := by
  simp [FourLane.of_parse_display_timing, of_property_read_u32, h1, h2, h3, h4, h5, h6, h7,
    h8, h9, Int.lor]

/-- Claim C6, at the input where the code departs from it: the panel-timing
node carries all nine properties, with `hdisplay` 800.  Mode selection
succeeds and registers one mode whose clock and other seven timings are the
node's, but whose `hdisplay` is 1024, the value of the default mode. -/
theorem C6_override_keeps_default_hdisplay :
    (timing800x480.read_u32 "hdisplay") = ⟨0, 800⟩ ∧
    (FourLane.kwh070kq40_panel_get_modes ⟨true, true⟩ (some (panelNode timing800x480))
      emptyConnector).1 = 1 ∧
    (FourLane.kwh070kq40_panel_get_modes ⟨true, true⟩ (some (panelNode timing800x480))
      emptyConnector).2.probed_modes =
      [{ clock := 33000
         hdisplay := 1024
         hsync_start := 840
         hsync_end := 968
         htotal := 1056
         vdisplay := 480
         vsync_start := 490
         vsync_end := 492
         vtotal := 525
         flags := 0
         width_mm := 154
         height_mm := 86
         type := 72
         name := some (1024, 480) }] ∧
    FourLane.default_mode.hdisplay = 1024 := by
  decide

/-- Claim C7 fails for the 4-lane variant: on a device node without a
`panel-timing` child, with every allocation succeeding, `get_modes` returns
`-ENOENT`, which is -2, and leaves the connector without any mode. -/
theorem C7_4lane_without_timing_node_fails :
    (FourLane.kwh070kq40_panel_get_modes ⟨true, true⟩ (some bareNode) emptyConnector).1 = -2 ∧
    (FourLane.kwh070kq40_panel_get_modes ⟨true, true⟩ (some bareNode)
      emptyConnector).2.probed_modes = [] ∧
    ¬ (0 ≤ (FourLane.kwh070kq40_panel_get_modes ⟨true, true⟩ (some bareNode)
      emptyConnector).1) := by
  decide

/-- Claim C7 as amended.  Both sentences are for a run in which
`drm_mode_duplicate` succeeds (the mode can be allocated).  In such a run
the 2-lane `get_modes` returns 1 and appends to the probed modes exactly
its default mode (clock 20833, hdisplay 1024, hsync_start 1184, hsync_end
1264, htotal 1344, vdisplay 600, vsync_start 612, vsync_end 622, vtotal
635, 154 mm by 86 mm), marked driver-preferred and named 1024x600, and
reports 154 mm by 86 mm at 8 bits per channel.  In such a run the 4-lane
`get_modes`, on a device node without a `panel-timing` child, returns
`-ENOENT` and leaves the connector untouched; its default mode has clock
55555 and the same timings and size. -/
theorem C7_default_mode_without_override (env : Alloc) (connector : drm_connector)
    (np : device_node) (halloc : env.mode_ok = true)
    (hno : of_get_child_by_name np "panel-timing" = none) :
    ((TwoLane.kwh070kq40v2l_panel_get_modes env connector).1 = 1 ∧
     (TwoLane.kwh070kq40v2l_panel_get_modes env connector).2.probed_modes =
       connector.probed_modes ++
        [{ clock := 20833
           hdisplay := 1024
           hsync_start := 1184
           hsync_end := 1264
           htotal := 1344
           vdisplay := 600
           vsync_start := 612
           vsync_end := 622
           vtotal := 635
           flags := 0
           width_mm := 154
           height_mm := 86
           type := DRM_MODE_TYPE_DRIVER ||| DRM_MODE_TYPE_PREFERRED
           name := some (1024, 600) }] ∧
     (TwoLane.kwh070kq40v2l_panel_get_modes env connector).2.display_info.bpc = 8 ∧
     (TwoLane.kwh070kq40v2l_panel_get_modes env connector).2.display_info.width_mm = 154 ∧
     (TwoLane.kwh070kq40v2l_panel_get_modes env connector).2.display_info.height_mm = 86) ∧
    (FourLane.kwh070kq40_panel_get_modes env (some np) connector = (-ENOENT, connector) ∧
     FourLane.default_mode =
        { clock := 55555
          hdisplay := 1024
          hsync_start := 1184
          hsync_end := 1264
          htotal := 1344
          vdisplay := 600
          vsync_start := 612
          vsync_end := 622
          vtotal := 635
          flags := 0
          width_mm := 154
          height_mm := 86
          type := 0
          name := none }) := by
  refine ⟨?_, ?_, by decide⟩
  · simp [TwoLane.kwh070kq40v2l_panel_get_modes, drm_mode_duplicate, halloc,
      drm_mode_set_name, drm_mode_probed_add, drm_display_info_set_bus_formats,
      TwoLane.default_mode]
    split <;> simp
  · simp [FourLane.kwh070kq40_panel_get_modes, drm_mode_duplicate, halloc,
      FourLane.of_get_display_timing, hno, ENOENT]

/-- Witness for C7 as amended: allocations succeed and the device node has no child. -/
theorem C7_default_mode_without_override_witness :
    (TwoLane.kwh070kq40v2l_panel_get_modes ⟨true, true⟩ emptyConnector).1 = 1 ∧
    FourLane.kwh070kq40_panel_get_modes ⟨true, true⟩ (some bareNode) emptyConnector =
      (-ENOENT, emptyConnector) :=
  have h := C7_default_mode_without_override ⟨true, true⟩ emptyConnector bareNode
    (by decide) rfl
  ⟨h.1.1, h.2.1⟩

/-- Claim C8: in the 4-lane variant, if the read of any one of the nine
timing properties of the `panel-timing` node returns a non-zero status,
whatever the other reads return, `of_parse_display_timing` returns
`-EINVAL`, and `kwh070kq40_panel_get_modes` returns `-EINVAL` and leaves
the connector as it was: no mode is registered. -/
theorem C8_failed_read_rejects_override (env : Alloc) (parent np : device_node)
    (dt : drm_display_mode) (connector : drm_connector) (propname : String)
    (hprop : propname ∈ ["clock-frequency", "hdisplay", "hsync_start", "hsync_end", "htotal",
      "vdisplay", "vsync_start", "vsync_end", "vtotal"])
    (hfail : (np.read_u32 propname).status ≠ 0)
    (hchild : of_get_child_by_name parent "panel-timing" = some np) :
    (FourLane.of_parse_display_timing np dt).1 = -EINVAL ∧
    FourLane.kwh070kq40_panel_get_modes env (some parent) connector = (-EINVAL, connector) := by
  have hparse : ∀ d, (FourLane.of_parse_display_timing np d).1 = -EINVAL := by
    intro d
    rw [of_parse_display_timing_status, if_neg]
    intro hall
    simp only [List.mem_cons, List.mem_singleton, List.not_mem_nil, or_false] at hprop
    rcases hprop with h | h | h | h | h | h | h | h | h <;> subst h <;> simp_all
  refine ⟨hparse dt, ?_⟩
  unfold FourLane.kwh070kq40_panel_get_modes drm_mode_duplicate
  cases env.mode_ok
  · simp
  · have h := hparse FourLane.default_mode
    simp [FourLane.of_get_display_timing, hchild]
    rw [Prod.ext_iff]
    simp [h, EINVAL]

/-- Witness for C8: the `hsync_end` property is missing. -/
theorem C8_failed_read_rejects_override_witness :
    (FourLane.of_parse_display_timing timingWithoutHsyncEnd FourLane.default_mode).1 =
      -EINVAL ∧
    FourLane.kwh070kq40_panel_get_modes ⟨true, true⟩ (some (panelNode timingWithoutHsyncEnd))
      emptyConnector = (-EINVAL, emptyConnector) :=
  C8_failed_read_rejects_override ⟨true, true⟩ (panelNode timingWithoutHsyncEnd)
    timingWithoutHsyncEnd FourLane.default_mode emptyConnector "hsync_end" (by decide)
    (by decide) rfl

end Kwh070kq40
